import Mathlib

/-!
# Verification of the paho.golang keepalive pinger and Connect property mapping

Shallow embedding of `src/paho/pinger.go` (the `DefaultPinger` keepalive
controller) and of `Connect.InitProperties` from the paho packet-mapping
layer.

Modelling conventions:
* Go `time.Time` values are modelled as `Nat` readings of the monotonic
  clock (nanoseconds); the Go zero `time.Time` is `0`, so `IsZero` is
  `= 0`, `Before` is `<` and `After` is `>`.
* `time.Duration(keepAlive) * time.Second` is `keepAlive * nanosPerSecond`.
* Go pointers (`*uint32`, `*byte`, ...) are `Option`; dereferencing a nil
  pointer is a panic, modelled by returning `none` from the whole function.
* `net.Conn` is only ever tested against `nil` and written to, so it is
  modelled as `Option Unit` (`none` = nil conn).
* Go `error` values built by `fmt.Errorf` are modelled by `GoError`:
  `errorf` for a plain formatted error and `wrap` for `%w` wrapping, with
  `unwrap` mirroring `errors.Unwrap`.
* The `Run` control loop blocks on `select { ctx.Done / timer.C / errCh }`.
  The environment's scheduling decisions (which arm fires, the timer value
  `t` delivered on `timer.C`, the `time.Now()` reading inside the loop
  body, and the traffic snapshot observed under the mutex) are supplied as
  a list of `RunEvent`s; the loop is a fold over that list.  An exhausted
  event list means `Run` is still blocked and has not returned.
* The mutex-protected fields are accessed atomically in the source; the
  embedding therefore treats each locked region as one step.
-/

/-- The nanoseconds in a Go `time.Second`; `interval` in `Run` is
`time.Duration(keepAlive) * time.Second`. -/
def nanosPerSecond : Nat := 1000000000

/-- Go errors as produced by `fmt.Errorf`: `errorf` when no `%w` verb is
used, `wrap` when the format string ends in `: %w` wrapping a cause. -/
inductive GoError where
  | errorf (msg : String)
  | wrap (msg : String) (cause : GoError)
deriving DecidableEq, Repr

/-- `errors.Unwrap`: recovers the cause of a `%w`-wrapped error. -/
def GoError.unwrap : GoError → Option GoError
  | .errorf _ => none
  | .wrap _ cause => some cause

/-- The state of `DefaultPinger` from `src/paho/pinger.go`: the three
traffic timestamps and the `running` flag.  The `debug` logger and the
mutex `mu` carry no verification content and are omitted; every locked
region of the source is modelled as a single atomic step. -/
structure DefaultPinger where
  lastPacketSent : Nat
  lastPacketReceived : Nat
  lastPingResponse : Nat
  running : Bool
deriving DecidableEq, Repr

/-- `NewDefaultPinger`: zero-valued timestamps and `running = false`. -/
def NewDefaultPinger : DefaultPinger :=
  { lastPacketSent := 0, lastPacketReceived := 0, lastPingResponse := 0
    running := false }

/-- `DefaultPinger.PacketSent`: stores `time.Now()` (passed in as `now`)
into `lastPacketSent` under the mutex. -/
def DefaultPinger.PacketSent (p : DefaultPinger) (now : Nat) : DefaultPinger :=
  { p with lastPacketSent := now }

/-- `DefaultPinger.PacketReceived`: stores `time.Now()` into
`lastPacketReceived` under the mutex. -/
def DefaultPinger.PacketReceived (p : DefaultPinger) (now : Nat) : DefaultPinger :=
  { p with lastPacketReceived := now }

/-- `DefaultPinger.PingResp`: stores `time.Now()` into `lastPingResponse`
under the mutex. -/
def DefaultPinger.PingResp (p : DefaultPinger) (now : Nat) : DefaultPinger :=
  { p with lastPingResponse := now }

/-- The consistent triple read under one lock acquisition at the top of the
`case t := <-timer.C` branch of `Run`: `p.lastPingResponse`,
`p.lastPacketSent`, `p.lastPacketReceived`. -/
structure Snapshot where
  lastPacketSent : Nat
  lastPacketReceived : Nat
  lastPingResponse : Nat
deriving DecidableEq, Repr

/-- The ping deadline computed in `Run` (pinger.go lines 109-116):
`if p.lastPacketSent.Before(p.lastPacketReceived) then lastPacketSent+interval
else lastPacketReceived+interval`. -/
def pingDue (snap : Snapshot) (interval : Nat) : Nat :=
  if snap.lastPacketSent < snap.lastPacketReceived then
    snap.lastPacketSent + interval
  else
    snap.lastPacketReceived + interval

/-- Outcome of the body of one `timer.C` tick of `Run`. -/
inductive TickOutcome where
  /-- `return fmt.Errorf("PINGRESP timed out")`. -/
  | timeout
  /-- `timer.Reset(pingDue.Sub(t)); continue` — `d` is the reset duration. -/
  | delay (d : Nat)
  /-- `lastPingSent = time.Now(); go writePingreq; timer.Reset(interval)` —
  `lps` is the new `lastPingSent` and `rearm` the reset duration. -/
  | dispatch (lps : Nat) (rearm : Nat)
deriving DecidableEq, Repr

/-- The body of the `case t := <-timer.C` branch of `Run` (pinger.go lines
104-139).  `lps` is the loop-local `lastPingSent`, `snap` the snapshot read
under the mutex, `t` the time delivered on `timer.C`, and `now` the
`time.Now()` reading taken at the `lastPingSent = time.Now()` line.
In order: (1) `!lastPingSent.IsZero() && lastPingSent.After(lastPingResponse)`
returns the PINGRESP timeout; (2) `t.Before(pingDue)` delays the timer;
(3) otherwise record `lastPingSent`, dispatch the write goroutine and
rearm the timer for `interval`. -/
def tickStep (interval lps : Nat) (snap : Snapshot) (t now : Nat) : TickOutcome :=
  if lps ≠ 0 ∧ snap.lastPingResponse < lps then
    .timeout
  else if t < pingDue snap interval then
    .delay (pingDue snap interval - t)
  else
    .dispatch now interval

/-- One wake-up of the `select` in `Run`'s loop, as resolved by the
environment: context cancellation, a timer fire (carrying the snapshot the
locked read will observe, the `timer.C` value `t` and the body's
`time.Now()` reading), or delivery of an error from `errCh`. -/
inductive RunEvent where
  | ctxDone
  | timerFire (snap : Snapshot) (t : Nat) (now : Nat)
  | errRecv (e : GoError)
deriving DecidableEq, Repr

/-- What `Run` returned: `nil` or an error. -/
inductive RunReturn where
  | ok
  | err (e : GoError)
deriving DecidableEq, Repr

/-- The `for { select { ... } }` loop of `Run` (pinger.go lines 100-141),
driven by the environment's event list.  Returns `none` while the loop is
still blocked (events exhausted) and `some` when `Run`'s loop returns,
together with the list of `time.Now()` readings at which a PINGREQ write
goroutine was dispatched (each dispatch is one write attempt on the
conn — the pinger's only I/O). -/
def runLoop (interval : Nat) : Nat → List RunEvent → Option RunReturn × List Nat
  | _, [] => (none, [])
  | _, .ctxDone :: _ => (some .ok, [])
  | _, .errRecv e :: _ => (some (.err e), [])
  | lps, .timerFire snap t now :: rest =>
    match tickStep interval lps snap t now with
    | .timeout => (some (.err (.errorf "PINGRESP timed out")), [])
    | .delay _ => runLoop interval lps rest
    | .dispatch lps' _ =>
      let (r, ds) := runLoop interval lps' rest
      (r, lps' :: ds)

/-- Capacity of `errCh := make(chan error, 1)` in `Run` (pinger.go line 98):
buffered so the write goroutine's error send never blocks. -/
def errChCapacity : Nat := 1

/-- The body of the write goroutine dispatched by `Run` (pinger.go lines
129-137): `packets.NewControlPacket(packets.PINGREQ).WriteTo(conn)`; on
error `err` it sends `fmt.Errorf("failed to send PINGREQ: %w", err)` on
`errCh`.  `writeErr` is the conn's write outcome; the result is the error
published to `errCh`, if any. -/
def emitPingreq (writeErr : Option GoError) : Option GoError :=
  writeErr.map fun e => GoError.wrap "failed to send PINGREQ" e

/-- `DefaultPinger.Run` (pinger.go lines 71-142).  `conn : Option Unit`
models the `net.Conn` reference (`none` = nil).  In source order:
keepAlive == 0 returns nil; nil conn returns `conn is nil`; a set
`running` flag returns `Run() already in progress`; otherwise the flag is
set, the loop runs with `lastPingSent` starting at zero, and the deferred
unlock clears the flag when (and only when) the loop returns.  The result
is (loop outcome — `none` if still blocked, pinger state at that point,
dispatched PINGREQ write times). -/
def DefaultPinger.Run (p : DefaultPinger) (conn : Option Unit) (keepAlive : Nat)
    (events : List RunEvent) : Option RunReturn × DefaultPinger × List Nat :=
  if keepAlive = 0 then
    (some .ok, p, [])
  else if conn = none then
    (some (.err (.errorf "conn is nil")), p, [])
  else if p.running then
    (some (.err (.errorf "Run() already in progress")), p, [])
  else
    let pRun := { p with running := true }
    let interval := keepAlive * nanosPerSecond
    match runLoop interval 0 events with
    | (none, ds) => (none, pRun, ds)
    | (some ret, ds) => (some ret, { pRun with running := false }, ds)

/-! ## Traffic notification traces

`PacketSent`, `PacketReceived` and `PingResp` may be called in any
interleaving by the containing client; each stores the `time.Now()`
reading taken inside its locked region.  A trace is a list of such calls
tagged with those clock readings; Go's monotonic clock makes the readings
non-decreasing across the trace and `time.Now()` is never the zero time. -/

/-- One call to `PacketSent`, `PacketReceived` or `PingResp`, tagged with
the `time.Now()` value that call stored. -/
inductive TrafficEvent where
  | packetSent (now : Nat)
  | packetReceived (now : Nat)
  | pingResp (now : Nat)
deriving DecidableEq, Repr

/-- The clock reading stored by a traffic call. -/
def TrafficEvent.time : TrafficEvent → Nat
  | .packetSent now => now
  | .packetReceived now => now
  | .pingResp now => now

/-- Dispatch one traffic call on the pinger state. -/
def applyTraffic (p : DefaultPinger) : TrafficEvent → DefaultPinger
  | .packetSent now => p.PacketSent now
  | .packetReceived now => p.PacketReceived now
  | .pingResp now => p.PingResp now

/-- All three stored timestamps of `p` are at most `t`. -/
abbrev fieldsLe (p : DefaultPinger) (t : Nat) : Prop :=
  p.lastPacketSent ≤ t ∧ p.lastPacketReceived ≤ t ∧ p.lastPingResponse ≤ t

/-- One step of the traffic trace is monotone: each stored timestamp does
not decrease, and a non-zero timestamp never becomes zero. -/
abbrev trafficStepLe (p q : DefaultPinger) : Prop :=
  (p.lastPacketSent ≤ q.lastPacketSent ∧
    p.lastPacketReceived ≤ q.lastPacketReceived ∧
    p.lastPingResponse ≤ q.lastPingResponse) ∧
  ((p.lastPacketSent ≠ 0 → q.lastPacketSent ≠ 0) ∧
    (p.lastPacketReceived ≠ 0 → q.lastPacketReceived ≠ 0) ∧
    (p.lastPingResponse ≠ 0 → q.lastPingResponse ≠ 0))

/-- The whole trace starting from `p` is monotone step by step. -/
def traceMono : DefaultPinger → List TrafficEvent → Prop
  | _, [] => True
  | p, e :: es => trafficStepLe p (applyTraffic p e) ∧ traceMono (applyTraffic p e) es

instance decTraceMono : (p : DefaultPinger) → (es : List TrafficEvent) →
    Decidable (traceMono p es)
  | _, [] => .isTrue trivial
  | p, e :: es =>
    have : Decidable (traceMono (applyTraffic p e) es) := decTraceMono _ es
    inferInstanceAs (Decidable (_ ∧ _))

/-! ## `Connect.InitProperties`

Embedding of `Connect.InitProperties` from the paho packet-mapping file.
The `packets.Properties` pointer fields are `Option`; `[]byte` is
`List Nat`; the packets-level user properties are a list of key/value
pairs and `UserPropertiesFromPacketUser` converts them elementwise. -/

/-- A single key/value user property (both the packets-level and
paho-level shapes carry a key and a value). -/
structure UserProperty where
  key : String
  value : String
deriving DecidableEq, Repr

/-- `UserPropertiesFromPacketUser`: converts the packets-level user
property list to the paho-level one, preserving each key/value pair. -/
def UserPropertiesFromPacketUser (user : List UserProperty) : List UserProperty :=
  user.map fun u => { key := u.key, value := u.value }

/-- The fields of `packets.Properties` read by `Connect.InitProperties`.
`requestResponseInfo` and `requestProblemInfo` embed the `*byte` fields. -/
structure PacketsProperties where
  sessionExpiryInterval : Option Nat
  authMethod : String
  authData : List Nat
  willDelayInterval : Option Nat
  requestResponseInfo : Option Nat
  requestProblemInfo : Option Nat
  receiveMaximum : Option Nat
  topicAliasMaximum : Option Nat
  maximumPacketSize : Option Nat
  user : List UserProperty
deriving DecidableEq, Repr

/-- `paho.ConnectProperties` as populated by `Connect.InitProperties`. -/
structure ConnectProperties where
  sessionExpiryInterval : Option Nat
  authMethod : String
  authData : List Nat
  willDelayInterval : Option Nat
  requestResponseInfo : Bool
  requestProblemInfo : Bool
  receiveMaximum : Option Nat
  topicAliasMaximum : Option Nat
  maximumPacketSize : Option Nat
  user : List UserProperty
deriving DecidableEq, Repr

/-- `Connect.InitProperties` (the body that fills `c.Properties`).  The
struct literal sets `RequestResponseInfo = false` and
`RequestProblemInfo = true`; then
`if p.RequestResponseInfo != nil { c.Properties.RequestResponseInfo = *p.RequestProblemInfo == 1 }`
(note: the source dereferences `p.RequestProblemInfo` here, which panics
when that pointer is nil — modelled as `none`); then
`if p.RequestProblemInfo != nil { c.Properties.RequestProblemInfo = *p.RequestProblemInfo == 1 }`. -/
def ConnectInitProperties (p : PacketsProperties) : Option ConnectProperties :=
  let c0 : ConnectProperties :=
    { sessionExpiryInterval := p.sessionExpiryInterval
      authMethod := p.authMethod
      authData := p.authData
      willDelayInterval := p.willDelayInterval
      requestResponseInfo := false
      requestProblemInfo := true
      receiveMaximum := p.receiveMaximum
      topicAliasMaximum := p.topicAliasMaximum
      maximumPacketSize := p.maximumPacketSize
      user := UserPropertiesFromPacketUser p.user }
  match p.requestResponseInfo with
  | none =>
    match p.requestProblemInfo with
    | none => some c0
    | some rpi => some { c0 with requestProblemInfo := rpi == 1 }
  | some _ =>
    match p.requestProblemInfo with
    | none => none
    | some rpi =>
      some { c0 with requestResponseInfo := rpi == 1, requestProblemInfo := rpi == 1 }

/-- Modelled from the spec: the intended, non-cross-wired property
mapping — "RequestResponseInfo and RequestProblemInfo as independent
optional booleans defaulting to (false, true) respectively, each driven
by its own source field".  Used only to exhibit the divergence of the
source from the claim. -/
def connectInitPropertiesIntended (p : PacketsProperties) : ConnectProperties :=
  { sessionExpiryInterval := p.sessionExpiryInterval
    authMethod := p.authMethod
    authData := p.authData
    willDelayInterval := p.willDelayInterval
    requestResponseInfo := match p.requestResponseInfo with
      | none => false
      | some rri => rri == 1
    requestProblemInfo := match p.requestProblemInfo with
      | none => true
      | some rpi => rpi == 1
    receiveMaximum := p.receiveMaximum
    topicAliasMaximum := p.topicAliasMaximum
    maximumPacketSize := p.maximumPacketSize
    user := UserPropertiesFromPacketUser p.user }

/-- A concrete `packets.Properties` input with `RequestResponseInfo`
pointing at 1 and `RequestProblemInfo` pointing at 0. -/
def propsRRI1RPI0 : PacketsProperties :=
  { sessionExpiryInterval := none, authMethod := "", authData := []
    willDelayInterval := none, requestResponseInfo := some 1
    requestProblemInfo := some 0, receiveMaximum := none
    topicAliasMaximum := none, maximumPacketSize := none, user := [] }

/-- A concrete `packets.Properties` input with `RequestResponseInfo`
pointing at 1 and `RequestProblemInfo` nil. -/
def propsRRI1RPInil : PacketsProperties :=
  { sessionExpiryInterval := none, authMethod := "", authData := []
    willDelayInterval := none, requestResponseInfo := some 1
    requestProblemInfo := none, receiveMaximum := none
    topicAliasMaximum := none, maximumPacketSize := none, user := [] }

/-! ## Theorems -/

/-- C1: For every traffic snapshot S and keepalive interval K > 0, the
ping deadline computed on a timer tick equals
min(S.lastSent, S.lastReceived) + K — the staler of the last-sent and
last-received timestamps anchors the deadline. -/
theorem C1_pingDue_eq_min_add (snap : Snapshot) (K : Nat) (_hK : 0 < K) :
    pingDue snap K = min snap.lastPacketSent snap.lastPacketReceived + K := by
  unfold pingDue
  split <;> omega

/-- Witness for C1 at a concrete snapshot and interval. -/
theorem C1_witness :
    0 < 2 ∧ pingDue ⟨3, 5, 0⟩ 2 = min 3 5 + 2 :=
  ⟨by decide, C1_pingDue_eq_min_add ⟨3, 5, 0⟩ 2 (by decide)⟩

/-- C3: On a timer tick, if a prior PINGREQ was dispatched
(`lastPingSent ≠ 0`) and `lastPingSent` is later than the last observed
PINGRESP timestamp, the loop returns the PINGRESP-timeout error.  The
check precedes the ping-due comparison: the conclusion holds for every
snapshot, tick time `t` and remaining schedule, so an unanswered ping
terminates the loop at the next timer fire regardless of other traffic. -/
theorem C3_pingresp_timeout (interval lps : Nat) (snap : Snapshot) (t now : Nat)
    (rest : List RunEvent) (h0 : lps ≠ 0) (hresp : snap.lastPingResponse < lps) :
    runLoop interval lps (.timerFire snap t now :: rest) =
      (some (.err (.errorf "PINGRESP timed out")), []) := by
  simp [runLoop, tickStep, h0, hresp]

/-- Witness for C3: an unanswered ping (sent at 3, last response at 1)
times out on the next tick even though the tick time precedes the ping
deadline. -/
theorem C3_witness :
    (3 : Nat) ≠ 0 ∧ (1 : Nat) < 3 ∧
    runLoop 50 3 [.timerFire ⟨100, 100, 1⟩ 10 11] =
      (some (.err (.errorf "PINGRESP timed out")), []) :=
  ⟨by decide, by decide, C3_pingresp_timeout 50 3 ⟨100, 100, 1⟩ 10 11 [] (by decide) (by decide)⟩

/-- C5: `Run(ctx, conn, 0)` returns success immediately for every conn
(nil or not) and every schedule, dispatches no PINGREQ write (no I/O),
and leaves the pinger state — traffic timestamps and running flag —
unchanged. -/
theorem C5_keepalive_zero_noop (p : DefaultPinger) (conn : Option Unit)
    (events : List RunEvent) :
    p.Run conn 0 events = (some .ok, p, []) := by
  simp [DefaultPinger.Run]

/-- C6: `Run(ctx, nil, K)` with K > 0 returns the `conn is nil` error for
every schedule, dispatches no PINGREQ write, and leaves the pinger state
unchanged (in particular the running flag is never set). -/
theorem C6_nil_conn_rejected (p : DefaultPinger) (K : Nat) (events : List RunEvent)
    (hK : K ≠ 0) :
    p.Run none K events = (some (.err (.errorf "conn is nil")), p, []) := by
  simp [DefaultPinger.Run, hK]

/-- Witness for C6 at K = 1 on a fresh pinger. -/
theorem C6_witness :
    (1 : Nat) ≠ 0 ∧
    NewDefaultPinger.Run none 1 [.ctxDone] =
      (some (.err (.errorf "conn is nil")), NewDefaultPinger, []) :=
  ⟨by decide, C6_nil_conn_rejected NewDefaultPinger 1 [.ctxDone] (by decide)⟩

/-- C10: the keepAlive == 0 check precedes the nil-conn check, so
`Run(ctx, nil, 0)` returns success (not the invalid-transport error) even
though the conn is nil. -/
theorem C10_zero_keepalive_beats_nil_conn (p : DefaultPinger) (events : List RunEvent) :
    p.Run none 0 events = (some .ok, p, []) := by
  simp [DefaultPinger.Run]

/-- C7: when the write goroutine's PINGREQ write fails with cause `e`, it
publishes `fmt.Errorf("failed to send PINGREQ: %w", e)` — a wrapping
error whose cause is recoverable by `unwrap` — the loop returns exactly
that error on receiving it, and the error channel is buffered with
capacity 1 ≥ 1 so the goroutine's send never blocks. -/
theorem C7_write_failure_wrapped (e : GoError) (interval lps : Nat)
    (rest : List RunEvent) :
    emitPingreq (some e) = some (.wrap "failed to send PINGREQ" e) ∧
    GoError.unwrap (.wrap "failed to send PINGREQ" e) = some e ∧
    runLoop interval lps (.errRecv (.wrap "failed to send PINGREQ" e) :: rest) =
      (some (.err (.wrap "failed to send PINGREQ" e)), []) ∧
    1 ≤ errChCapacity := by
  refine ⟨rfl, rfl, ?_, by decide⟩
  simp [runLoop]

/-- C9 counterexample: on a tick whose `timer.C` value is t = 12 with the
ping due (12 is not before the deadline 10), the code records
`lastPingSent = 15` — the `time.Now()` reading taken at dispatch — which
differs from the tick time t = 12 the claim says is recorded. -/
theorem C9_counterexample :
    ¬ (12 : Nat) < pingDue ⟨0, 0, 0⟩ 10 ∧
    tickStep 10 0 ⟨0, 0, 0⟩ 12 15 = .dispatch 15 10 ∧
    (15 : Nat) ≠ 12 := by
  decide

/-- C9 (amended): when a tick at `timer.C` time `t` finds no PINGRESP
timeout and the ping due (`t` not before the deadline), the controller
records `lastPingSent = now`, the fresh `time.Now()` reading taken when
emission is initiated (not the tick time `t`, and not the time the write
completes), dispatches the emitter, and rearms the timer for the
keepalive interval.  The remaining schedule `rest` — which carries any
later write completion or failure — is arbitrary, so the recorded value
is set before and independently of the write's completion. -/
theorem C9_lastPingSent_at_dispatch (interval lps : Nat) (snap : Snapshot)
    (t now : Nat) (rest : List RunEvent)
    (hnt : ¬ (lps ≠ 0 ∧ snap.lastPingResponse < lps))
    (hdue : ¬ t < pingDue snap interval) :
    tickStep interval lps snap t now = .dispatch now interval ∧
    runLoop interval lps (.timerFire snap t now :: rest) =
      ((runLoop interval now rest).1, now :: (runLoop interval now rest).2) := by
  have hstep : tickStep interval lps snap t now = .dispatch now interval := by
    unfold tickStep
    rw [if_neg hnt, if_neg hdue]
  exact ⟨hstep, by simp [runLoop, hstep]⟩

/-- Witness for C9 at a concrete due tick followed by an empty schedule. -/
theorem C9_witness :
    tickStep 10 0 ⟨0, 0, 0⟩ 12 15 = .dispatch 15 10 ∧
    runLoop 10 0 [.timerFire ⟨0, 0, 0⟩ 12 15] =
      ((runLoop 10 15 []).1, 15 :: (runLoop 10 15 []).2) :=
  C9_lastPingSent_at_dispatch 10 0 ⟨0, 0, 0⟩ 12 15 [] (by decide) (by decide)

/-- C4: the running-flag discipline of `Run`, for any K > 0 and non-nil
conn.  (a) A `Run` invoked while the flag is true returns the
`Run() already in progress` error with the pinger state unchanged and no
I/O, so in this sequential model of the mutex-serialised flag accesses at
most one `Run` activity ever holds the flag.  (b) A `Run` entered with
the flag false passes validation and holds the flag true exactly while
its loop has not returned (`outcome = none`), and the flag is false again
as soon as the loop returns; no other field is touched. -/
theorem C4_running_flag (p : DefaultPinger) (K : Nat) (events : List RunEvent)
    (hK : K ≠ 0) :
    (p.running = true →
      p.Run (some ()) K events =
        (some (.err (.errorf "Run() already in progress")), p, [])) ∧
    (p.running = false →
      (p.Run (some ()) K events).2.1 =
        { p with running := (p.Run (some ()) K events).1.isNone }) := by
  constructor
  · intro hrun
    simp [DefaultPinger.Run, hK, hrun]
  · intro hrun
    rcases hloop : runLoop (K * nanosPerSecond) 0 events with ⟨r, ds⟩
    cases r <;> simp [DefaultPinger.Run, hK, hrun, hloop]

/-- Witness for C4: a second Run on a pinger whose flag is held is
rejected without touching the state. -/
theorem C4_witness :
    DefaultPinger.Run
        { lastPacketSent := 0, lastPacketReceived := 0, lastPingResponse := 0
          running := true } (some ()) 1 [.ctxDone] =
      (some (.err (.errorf "Run() already in progress")),
        { lastPacketSent := 0, lastPacketReceived := 0, lastPingResponse := 0
          running := true }, []) :=
  (C4_running_flag _ 1 [.ctxDone] (by decide)).1 rfl

/-- One traffic call with a positive clock reading at least the stored
timestamps is a monotone step. -/
theorem applyTraffic_stepLe (p : DefaultPinger) (e : TrafficEvent)
    (hpos : 0 < e.time) (hfe : fieldsLe p e.time) :
    trafficStepLe p (applyTraffic p e) := by
  obtain ⟨h1, h2, h3⟩ := hfe
  cases e <;>
    simp only [applyTraffic, DefaultPinger.PacketSent, DefaultPinger.PacketReceived,
      DefaultPinger.PingResp, TrafficEvent.time, trafficStepLe] at * <;>
    omega

/-- A traffic call with reading at most `t` keeps all stored timestamps
at most `t`. -/
theorem applyTraffic_fieldsLe (p : DefaultPinger) (e : TrafficEvent) (t : Nat)
    (hft : fieldsLe p t) (het : e.time ≤ t) :
    fieldsLe (applyTraffic p e) t := by
  obtain ⟨h1, h2, h3⟩ := hft
  cases e <;>
    simp only [applyTraffic, DefaultPinger.PacketSent, DefaultPinger.PacketReceived,
      DefaultPinger.PingResp, TrafficEvent.time, fieldsLe] at * <;>
    omega

/-- C8: across any interleaving of `PacketSent`, `PacketReceived` and
`PingResp` calls whose clock readings are positive (Go's `time.Now()` is
never the zero time), at least the timestamps already stored, and
non-decreasing across the trace (the monotonic clock), each of the three
stored timestamps is non-decreasing step by step, and once non-zero is
never reset to zero. -/
theorem C8_traffic_monotone (p : DefaultPinger) (es : List TrafficEvent)
    (hpos : ∀ e ∈ es, 0 < e.time)
    (hinit : ∀ e ∈ es, fieldsLe p e.time)
    (hsort : (es.map TrafficEvent.time).Pairwise (· ≤ ·)) :
    traceMono p es := by
  induction es generalizing p with
  | nil => trivial
  | cons e rest ih =>
    have hmem : e ∈ e :: rest := List.mem_cons_self e rest
    rw [List.map_cons, List.pairwise_cons] at hsort
    obtain ⟨hhead, htail⟩ := hsort
    refine ⟨applyTraffic_stepLe p e (hpos e hmem) (hinit e hmem), ?_⟩
    refine ih _ (fun e' he' => hpos e' (List.mem_cons_of_mem _ he')) ?_ htail
    intro e' he'
    exact applyTraffic_fieldsLe p e _ (hinit e' (List.mem_cons_of_mem _ he'))
      (hhead _ (List.mem_map_of_mem _ he'))

/-- Witness for C8 on a concrete interleaving from a fresh pinger. -/
theorem C8_witness :
    traceMono NewDefaultPinger
      [.packetSent 1, .packetReceived 2, .pingResp 2, .packetSent 5] :=
  C8_traffic_monotone NewDefaultPinger
    [.packetSent 1, .packetReceived 2, .pingResp 2, .packetSent 5]
    (by decide) (by decide) (by decide)

/-- C2: at the input where `RequestResponseInfo` points at 1 and
`RequestProblemInfo` points at 0, `Connect.InitProperties` sets
`Properties.RequestResponseInfo` from `*p.RequestProblemInfo` and
produces `false`, while the claim's independent wiring (each field driven
by its own source, defaults (false, true)) requires `true`; moreover with
`RequestResponseInfo` non-nil and `RequestProblemInfo` nil the source
dereferences the nil pointer and panics (`none`), where the claim
requires `(true, true)`. -/
theorem C2_cross_wiring_bug :
    (ConnectInitProperties propsRRI1RPI0).map ConnectProperties.requestResponseInfo =
      some false ∧
    (connectInitPropertiesIntended propsRRI1RPI0).requestResponseInfo = true ∧
    ConnectInitProperties propsRRI1RPInil = none ∧
    (connectInitPropertiesIntended propsRRI1RPInil).requestResponseInfo = true := by
  decide
